import Mathlib

/-!
# Verification of the Snapmaker device-communication client

Shallow embedding of `custom_components/snapmaker/snapmaker.py` (class
`SnapmakerDevice`) and `custom_components/snapmaker/const.py`.

Modelling conventions:
* JSON scalar values (and Python `None`) are the inductive type `JVal`;
  `JVal.null` plays the role of both JSON `null` and Python `None`.
  The device's status payloads are flat JSON objects whose values are
  scalars, so arrays/objects are not modelled.
* Python dicts are association lists `Dict := List (String × JVal)` with
  first-match lookup; `dict.get(k)` is `dget` (returning `JVal.null` when
  the key is missing, exactly as Python returns `None`), `dict.get(k, d)`
  is `dgetD`, `k in dict` is `hasKey`, and `dict.update` is `dictUpdate`.
* The network environment of one `update()` call is explicit data
  (`Env`): the datagrams received during each discovery attempt, the
  outcomes of the TCP reachability probes, the result of token
  acquisition, and the HTTP status-endpoint response.  Arbitrary values
  of `Env` cover all discovery/HTTP outcomes.
* Python exceptions that the code catches are modelled by `Option`
  results (`none` = an exception was raised and funnelled into the
  corresponding `except` handler).  All embedded operations are total
  Lean functions, which is the embedding of the source's guarantee that
  expected failures never escape `update()`.
-/

/-- A JSON scalar value / Python scalar. `null` doubles as Python `None`. -/
inductive JVal where
  | null : JVal
  | bool : Bool → JVal
  | num : ℚ → JVal
  | str : String → JVal
deriving DecidableEq

/-- A Python dict with string keys, as an association list (first match wins). -/
abbrev Dict := List (String × JVal)

/-- Lookup `d.get(k)` / `d[k]` returning the first binding of `k`. -/
def dlookup (d : Dict) (k : String) : Option JVal :=
  (d.find? (fun p => p.1 == k)).map (fun p => p.2)

/-- Python `d.get(k)`: `None` (= `JVal.null`) when the key is missing. -/
def dget (d : Dict) (k : String) : JVal :=
  (dlookup d k).getD JVal.null

/-- Python `d.get(k, dflt)`. -/
def dgetD (d : Dict) (k : String) (dflt : JVal) : JVal :=
  (dlookup d k).getD dflt

/-- Python `k in d`. -/
def hasKey (d : Dict) (k : String) : Bool :=
  (dlookup d k).isSome

/-- Python `d.update(u)`: values of keys already in `d` are replaced in
place, new keys of `u` are appended. -/
def dictUpdate (d u : Dict) : Dict :=
  d.map (fun p => (p.1, (dlookup u p.1).getD p.2)) ++
    u.filter (fun p => !(hasKey d p.1))

/-- Python truthiness of a scalar. -/
def jTruthy : JVal → Bool
  | JVal.null => false
  | JVal.bool b => b
  | JVal.num q => decide (q ≠ 0)
  | JVal.str s => decide (s ≠ "")

/-- Python truthiness of an `Optional[str]` (`None` and `""` are falsy). -/
def strTruthy : Option String → Bool
  | none => false
  | some s => decide (s ≠ "")

/-- Python `v or dflt` for `v : Optional[str]`. -/
def pyOrStr (v : Option String) (dflt : String) : String :=
  match v with
  | some s => if s = "" then dflt else s
  | none => dflt

/-! ## Constants (snapmaker.py lines 16-29, const.py) -/

def MAX_RETRIES : ℕ := 5

def REACHABILITY_MAX_RETRIES : ℕ := 2

/-- The `TOOLHEAD_MAP` table from `const.py`. -/
def TOOLHEAD_MAP : List (String × String) :=
  [("TOOLHEAD_3DPRINTING_1", "Extruder"),
   ("TOOLHEAD_3DPRINTING_2", "Dual Extruder"),
   ("TOOLHEAD_CNC_1", "CNC"),
   ("TOOLHEAD_LASER_1", "Laser"),
   ("TOOLHEAD_LASER_2", "Laser")]

/-! ## The device state (`SnapmakerDevice.__init__`) -/

/-- The mutable fields of a `SnapmakerDevice` instance.  `status` is a
`JVal` because `_get_status` assigns `data.get("status")`, which may be
any JSON scalar or `None`. -/
structure SnapmakerDevice where
  host : String
  token : Option String
  data : Dict
  rawApiResponse : Dict
  available : Bool
  model : Option String
  status : JVal
  dualExtruder : Bool
deriving DecidableEq

/-- Constructor `SnapmakerDevice.__init__(host, token)`. -/
def SnapmakerDevice.init (host : String) (token : Option String) : SnapmakerDevice :=
  { host := host, token := token, data := [], rawApiResponse := [],
    available := false, model := none, status := JVal.str "OFFLINE",
    dualExtruder := false }

/-! ## `_set_offline` (lines 171-206) -/

/-- The defaulted offline telemetry map built by `_set_offline`.
`"model": self._model or "N/A"` uses Python truthiness. -/
def offlineData (host : String) (model : Option String) : Dict :=
  [("ip", JVal.str host),
   ("model", JVal.str (pyOrStr model "N/A")),
   ("status", JVal.str "OFFLINE"),
   ("nozzle_temperature", JVal.null),
   ("nozzle_target_temperature", JVal.null),
   ("heated_bed_temperature", JVal.null),
   ("heated_bed_target_temperature", JVal.null),
   ("file_name", JVal.str "N/A"),
   ("progress", JVal.null),
   ("elapsed_time", JVal.str "N/A"),
   ("remaining_time", JVal.str "N/A"),
   ("estimated_time", JVal.str "N/A"),
   ("tool_head", JVal.str "N/A"),
   ("x", JVal.null),
   ("y", JVal.null),
   ("z", JVal.null),
   ("homing", JVal.str "N/A"),
   ("is_filament_out", JVal.bool false),
   ("is_door_open", JVal.bool false),
   ("has_enclosure", JVal.bool false),
   ("has_rotary_module", JVal.bool false),
   ("has_emergency_stop", JVal.bool false),
   ("has_air_purifier", JVal.bool false),
   ("total_lines", JVal.null),
   ("current_line", JVal.null)]

/-- Method `_set_offline`: leaves `_model`, `_token` and `_dual_extruder` untouched. -/
def setOffline (dev : SnapmakerDevice) : SnapmakerDevice :=
  { dev with
    available := false, status := JVal.str "OFFLINE",
    rawApiResponse := [], data := offlineData dev.host dev.model }

/-! ## Discovery (`_check_online`, lines 208-322) -/

/-- One discovery reply datagram: the UTF-8 decoding of the received
bytes (`none` when decoding raises `UnicodeDecodeError`) together with
the sender address `addr[0]`. -/
structure Datagram where
  text : Option String
  addr : String
deriving DecidableEq

/-- All separators of the discovery wire format (`|`, `@`, `:`) are
single characters, so Python's `split` and `in` are modelled by
structural recursion on the character list of the string. -/
def splitOnChar (c : Char) : List Char → List (List Char)
  | [] => [[]]
  | ch :: rest =>
    match splitOnChar c rest with
    | [] => [[]]
    | cur :: parts => if ch = c then [] :: cur :: parts else (ch :: cur) :: parts

/-- Python `s.split(sep)` for a one-character separator. -/
def pySplit (c : Char) (s : String) : List String :=
  (splitOnChar c s.data).map String.mk

/-- Python `sep in s` for a one-character separator. -/
def pyContains (c : Char) (s : String) : Bool :=
  s.data.contains c

/-- Python `s.split(sep, 1)[1]` for a one-character separator:
everything after the first occurrence (only used when it occurs). -/
def afterChar (c : Char) : List Char → List Char
  | [] => []
  | ch :: rest => if ch = c then rest else afterChar c rest

/-- The `afterChar` operation on strings. -/
def afterFirst (c : Char) (s : String) : String :=
  String.mk (afterChar c s.data)

/-- Parsing of one decoded discovery reply (lines 238-280): split on
`"|"`, require at least three fields and the `"@"`/`":"` separators,
then match the parsed IP or the sender address against the target host.
Returns the `(ip, model, status)` triple on a match, `none` when the
reply is skipped. -/
def processReply (host addr s : String) : Option (String × String × String) :=
  match pySplit '|' s with
  | snIp :: snModel :: snStatus :: _ =>
    if pyContains '@' snIp && pyContains ':' snModel && pyContains ':' snStatus then
      let ipVal := afterFirst '@' snIp
      let modelVal := afterFirst ':' snModel
      let statusVal := afterFirst ':' snStatus
      if ipVal = host || addr = host then some (ipVal, modelVal, statusVal)
      else none
    else none
  | _ => none

/-- Parsing of one discovery reply datagram: a `UnicodeDecodeError`
(`text = none`) is skipped, otherwise the decoded text is parsed. -/
def processDatagram (host : String) (dg : Datagram) : Option (String × String × String) :=
  match dg.text with
  | none => none
  | some s => processReply host dg.addr s

/-- Method `_check_online`: up to `MAX_RETRIES` attempts, each receiving a list
of datagrams; the first matching reply sets the device online with the
discovery triple, otherwise retries are exhausted and the device is set
offline.  An attempt aborted by a socket exception is equivalent to the
truncated list of datagrams processed before it (non-matching datagrams
cause no state change, and both outcomes advance `retry_count`). -/
def checkOnline (dev : SnapmakerDevice) (attempts : List (List Datagram)) : SnapmakerDevice :=
  match (attempts.take MAX_RETRIES).findSome?
      (fun ds => ds.findSome? (processDatagram dev.host)) with
  | some (ip, mdl, st) =>
      { dev with
        available := true, model := some mdl, status := JVal.str st,
        data := [("ip", JVal.str ip), ("model", JVal.str mdl), ("status", JVal.str st)] }
  | none => setOffline dev

/-! ## Reachability precheck (`_check_reachable`, lines 104-144) -/

/-- Method `_check_reachable`: up to `REACHABILITY_MAX_RETRIES` TCP probes;
`true` as soon as one connects.  The environment provides the outcome of
each probe. -/
def checkReachable (outcomes : List Bool) : Bool :=
  (outcomes.take REACHABILITY_MAX_RETRIES).any (fun b => b)

/-! ## Python numeric helpers used by `_get_status` -/

/-- Round `n / d` (with `0 < d`) half to even, on the integer
numerator/denominator: `f` is the floor and `r2` twice the remainder,
compared against `d` to decide the direction of the tie-free cases. -/
def roundHalfEvenND (n : ℤ) (d : ℕ) : ℤ :=
  let f := n.fdiv d
  let r2 := 2 * (n - f * d)
  if r2 < (d : ℤ) then f
  else if (d : ℤ) < r2 then f + 1
  else if f % 2 = 0 then f else f + 1

/-- Python `round(x)`: round half to even (banker's rounding), idealized
over the rationals. -/
def pyRoundHalfEven (q : ℚ) : ℤ :=
  roundHalfEvenND q.num q.den

/-- Multiplication `q * z` by an integer `z`, computed on the numerator so that it
reduces inside the kernel (`mkRat` renormalizes). -/
def ratMulInt (q : ℚ) (z : ℤ) : ℚ :=
  mkRat (q.num * z) q.den

/-- Python `round(x, 1)`: `round(x * 10)` half to even, divided by 10. -/
def pyRound1 (q : ℚ) : ℚ :=
  mkRat (roundHalfEvenND (q.num * 10) q.den) 10

/-- Python `datetime.timedelta(seconds=q)` stores a whole number of
microseconds, obtained by half-even rounding. -/
def tdTotalMicros (q : ℚ) : ℤ :=
  roundHalfEvenND (q.num * 1000000) q.den

/-- Two-digit zero padding, as in `timedelta.__str__`. -/
def padZero2 (n : ℕ) : String :=
  if n < 10 then "0" ++ toString n else toString n

/-- Six-digit zero padding for the microsecond part. -/
def padZero6 (n : ℕ) : String :=
  let s := toString n
  String.mk (List.replicate (6 - s.length) '0') ++ s

/-- Python `str(datetime.timedelta(...))` on a timedelta of `us` total
microseconds: days are floored (`fdiv`), the remainder is rendered as
`H:MM:SS[.ffffff]`, and a nonzero day count is prefixed as
`"D day(s), "`. -/
def pyTimedeltaRepr (us : ℤ) : String :=
  let d : ℤ := us.fdiv 86400000000
  let r : ℕ := (us - d * 86400000000).toNat
  let secs := r / 1000000
  let micro := r % 1000000
  let base := toString (secs / 3600) ++ ":" ++ padZero2 (secs % 3600 / 60) ++ ":"
      ++ padZero2 (secs % 60)
      ++ (if micro = 0 then "" else "." ++ padZero6 micro)
  if d = 0 then base
  else toString d ++ (if d = 1 ∨ d = -1 then " day, " else " days, ") ++ base

/-! ## Status payload parsing (`_get_status`, lines 430-581)

The fallible steps of the payload processing are the `progress`
conversion (line 494: `round(value * 100, 1)` raises `TypeError` on a
string) and the three duration conversions (lines 496-506:
`timedelta(seconds=value)` raises `TypeError` on a string); a raised
`TypeError` is caught by the `except Exception` handler, modelled as
`none`.  Python booleans are integers, so a boolean value participates
in the arithmetic as 0/1. -/

/-- Line 492-494: `progress = 0` unless `data.get("progress")` is not
`None`, in which case `round(progress * 100, 1)`. -/
def progressField (v : JVal) : Option JVal :=
  match v with
  | JVal.null => some (JVal.num 0)
  | JVal.num q => some (JVal.num (pyRound1 (ratMulInt q 100)))
  | JVal.bool b => some (JVal.num (pyRound1 (if b then 100 else 0)))
  | JVal.str _ => none

/-- Lines 496-506: `"00:00:00"` unless the raw value is not `None`, in
which case `str(timedelta(seconds=value))`. -/
def durationField (v : JVal) : Option String :=
  match v with
  | JVal.null => some "00:00:00"
  | JVal.num q => some (pyTimedeltaRepr (tdTotalMicros q))
  | JVal.bool b => some (pyTimedeltaRepr (tdTotalMicros (if b then 1 else 0)))
  | JVal.str _ => none

/-- Lines 454-458: the dual-extruder fallback condition. -/
def dualFallback (payload : Dict) : Bool :=
  decide (dgetD payload "toolHead" (JVal.str "") = JVal.str "TOOLHEAD_3DPRINTING_1")
  && !(hasKey payload "nozzleTemperature") && hasKey payload "nozzle1Temperature"

/-- Lines 446-459: `_dual_extruder` as assigned before the fallible
field conversions. -/
def computeDualExtruder (payload : Dict) : Bool :=
  (hasKey payload "nozzle1Temperature" && hasKey payload "nozzle2Temperature")
  || dualFallback payload

/-- Lines 433-435: `TOOLHEAD_MAP.get(raw_toolhead, raw_toolhead or "N/A")`
where `raw_toolhead = data.get("toolHead", "")`. -/
def toolheadDisplay (rawTH : JVal) : JVal :=
  let dflt := if jTruthy rawTH then rawTH else JVal.str "N/A"
  match rawTH with
  | JVal.str s =>
    match TOOLHEAD_MAP.find? (fun p => p.1 == s) with
    | some p => JVal.str p.2
    | none => dflt
  | _ => dflt

/-- Lines 558-563: CNC/laser entries are added only when the raw value
is not `None`. -/
def condEntry (k : String) (v : JVal) : Dict :=
  if v = JVal.null then [] else [(k, v)]

/-- Lines 475-485 and 566-581: nozzle entries depend on the
dual-extruder configuration. -/
def nozzleEntries (dual : Bool) (payload : Dict) : Dict :=
  if dual then
    [("nozzle1_temperature", dgetD payload "nozzle1Temperature" (JVal.num 0)),
     ("nozzle1_target_temperature", dgetD payload "nozzle1TargetTemperature" (JVal.num 0)),
     ("nozzle2_temperature", dgetD payload "nozzle2Temperature" (JVal.num 0)),
     ("nozzle2_target_temperature", dgetD payload "nozzle2TargetTemperature" (JVal.num 0))]
  else
    [("nozzle_temperature", dgetD payload "nozzleTemperature" (JVal.num 0)),
     ("nozzle_target_temperature", dgetD payload "nozzleTargetTemperature" (JVal.num 0))]

/-- The result of successfully processing one status payload: the value
assigned to `self._status`, the value assigned to `self._dual_extruder`,
and the `update_dict` merged into `self._data`. -/
structure ParsedStatus where
  status : JVal
  dualExtruder : Bool
  upd : Dict
deriving DecidableEq

/-- The fallible conversions of `_get_status` (progress and the three
durations), in source order; `none` models a raised `TypeError`. -/
def parseFallible (payload : Dict) : Option (JVal × String × String × String) :=
  match progressField (dget payload "progress"),
        durationField (dget payload "elapsedTime"),
        durationField (dget payload "remainingTime"),
        durationField (dget payload "estimatedTime") with
  | some progress, some elapsed, some remaining, some estimated =>
      some (progress, elapsed, remaining, estimated)
  | _, _, _, _ => none

/-- The infallible base entries of `update_dict` (lines 533-555). -/
def baseUpd (payload : Dict) (progress : JVal) (elapsed remaining estimated : String) : Dict :=
  [("status", dget payload "status"),
   ("heated_bed_temperature", dgetD payload "heatedBedTemperature" (JVal.num 0)),
   ("heated_bed_target_temperature", dgetD payload "heatedBedTargetTemperature" (JVal.num 0)),
   ("file_name", dgetD payload "fileName" (JVal.str "N/A")),
   ("progress", progress),
   ("elapsed_time", JVal.str elapsed),
   ("remaining_time", JVal.str remaining),
   ("estimated_time", JVal.str estimated),
   ("tool_head",
     if dualFallback payload then JVal.str "Dual Extruder"
     else toolheadDisplay (dgetD payload "toolHead" (JVal.str ""))),
   ("x", dgetD payload "x" (JVal.num 0)),
   ("y", dgetD payload "y" (JVal.num 0)),
   ("z", dgetD payload "z" (JVal.num 0)),
   ("homing", dgetD payload "homing" (JVal.str "N/A")),
   ("is_filament_out", dgetD payload "isFilamentOut" (JVal.bool false)),
   ("is_door_open", dgetD payload "isDoorOpen" (JVal.bool false)),
   ("has_enclosure", dgetD payload "enclosure" (JVal.bool false)),
   ("has_rotary_module", dgetD payload "rotaryModule" (JVal.bool false)),
   ("has_emergency_stop", dgetD payload "emergencyStop" (JVal.bool false)),
   ("has_air_purifier", dgetD payload "airPurifier" (JVal.bool false)),
   ("total_lines", dgetD payload "totalLines" (JVal.num 0)),
   ("current_line", dgetD payload "currentLine" (JVal.num 0))]

/-- The complete `update_dict` (lines 533-581): base entries, then the
conditional CNC/laser entries, then the nozzle entries. -/
def statusUpdDict (payload : Dict) (progress : JVal)
    (elapsed remaining estimated : String) : Dict :=
  baseUpd payload progress elapsed remaining estimated
    ++ condEntry "spindle_speed" (dget payload "spindleSpeed")
    ++ condEntry "laser_power" (dget payload "laserPower")
    ++ condEntry "laser_focal_length" (dget payload "laserFocalLength")
    ++ nozzleEntries (computeDualExtruder payload) payload

/-- Lines 430-581 of `_get_status`: processing of a successfully decoded
JSON payload.  `none` models a `TypeError` raised by the progress or
duration conversion (caught by the `except Exception` handler). -/
def parseStatus (payload : Dict) : Option ParsedStatus :=
  (parseFallible payload).map (fun f =>
    { status := dget payload "status",
      dualExtruder := computeDualExtruder payload,
      upd := statusUpdDict payload f.1 f.2.1 f.2.2.1 f.2.2.2 })

/-! ## `_get_status` (lines 384-596) -/

/-- The outcome of the HTTP GET to `/api/v1/status`, enumerated in the
order the code inspects it: empty/whitespace body (line 393), HTTP error
raised by `raise_for_status` (line 400), JSON decode failure (line 404),
a parsed JSON object, or any other exception from the request layer
(caught by `except Exception`). -/
inductive StatusResp where
  | empty : StatusResp
  | httpError : ℕ → StatusResp
  | badJson : StatusResp
  | ok : Dict → StatusResp
  | netError : StatusResp
deriving DecidableEq

/-- Method `_get_status`.  On the success path `self._available` is never
touched; on an empty body or a JSON decode failure only `_available` and
`_status` are set (the stale `_data` is kept); a 401 HTTP error clears
the token before `_set_offline`; every other failure is `_set_offline`
with the token kept.  On the success path `_raw_api_response` and
`_dual_extruder` are assigned before the fallible conversions. -/
def getStatus (dev : SnapmakerDevice) (resp : StatusResp) : SnapmakerDevice :=
  match resp with
  | StatusResp.empty =>
      { dev with available := false, status := JVal.str "OFFLINE" }
  | StatusResp.httpError code =>
      if code = 401 then setOffline { dev with token := none }
      else setOffline dev
  | StatusResp.badJson =>
      { dev with available := false, status := JVal.str "OFFLINE" }
  | StatusResp.netError => setOffline dev
  | StatusResp.ok payload =>
      let dev1 := { dev with rawApiResponse := payload }
      match parseStatus payload with
      | some r =>
          { dev1 with
            status := r.status, dualExtruder := r.dualExtruder,
            data := dictUpdate dev1.data r.upd }
      | none => setOffline { dev1 with dualExtruder := computeDualExtruder payload }

/-! ## `update` (lines 146-169) -/

/-- The environment of one `update()` call: the datagrams received in
each discovery attempt, the outcome of each TCP reachability probe, the
result of `_get_token` (which mutates no device state and returns
`None` on every failure), and the status-endpoint response. -/
structure Env where
  discovery : List (List Datagram)
  reachable : List Bool
  tokenResult : Option String
  statusResp : StatusResp

/-- The observable result of one `update()` call: the final device
state, the returned `self._data`, and whether the token-acquisition and
status HTTP requests were issued at all. -/
structure UpdateResult where
  dev : SnapmakerDevice
  ret : Dict
  tokenRequested : Bool
  statusRequested : Bool

/-- Lines 163-167 of `update()`: token acquisition (only when the cached
token is falsy) followed by the status fetch (only when a token is then
present).  `if not self._token` and `if self._token` use Python
truthiness (an empty-string token is falsy). -/
def updateAuth (dev1 : SnapmakerDevice) (env : Env) : UpdateResult :=
  let acquire := strTruthy dev1.token = false
  let dev2 := if acquire then { dev1 with token := env.tokenResult } else dev1
  if strTruthy dev2.token then
    let dev3 := getStatus dev2 env.statusResp
    { dev := dev3, ret := dev3.data, tokenRequested := acquire, statusRequested := true }
  else
    { dev := dev2, ret := dev2.data, tokenRequested := acquire, statusRequested := false }

/-- Method `update()` with request-issuance instrumentation. -/
def updateT (dev : SnapmakerDevice) (env : Env) : UpdateResult :=
  let dev1 := checkOnline dev env.discovery
  if dev1.available = true ∧ dev1.status ≠ JVal.str "OFFLINE" then
    if checkReachable env.reachable = false then
      let dev2 := setOffline dev1
      { dev := dev2, ret := dev2.data, tokenRequested := false, statusRequested := false }
    else updateAuth dev1 env
  else
    { dev := dev1, ret := dev1.data, tokenRequested := false, statusRequested := false }

/-- Method `update()`: final state and returned telemetry map. -/
def update (dev : SnapmakerDevice) (env : Env) : SnapmakerDevice × Dict :=
  ((updateT dev env).dev, (updateT dev env).ret)

/-- Device states reachable from construction through any sequence of
`update()` calls with arbitrary network outcomes. -/
inductive ReachableDevice (host : String) (token : Option String) : SnapmakerDevice → Prop
  | init : ReachableDevice host token (SnapmakerDevice.init host token)
  | step (d : SnapmakerDevice) (env : Env) :
      ReachableDevice host token d → ReachableDevice host token (update d env).1

/-! ## Dictionary lemmas -/

theorem dlookup_append (a b : Dict) (k : String) :
    dlookup (a ++ b) k = (dlookup a k).or (dlookup b k) := by
  unfold dlookup
  rw [List.find?_append]
  cases a.find? (fun p => p.1 == k) <;> simp [Option.or]

theorem dlookup_mapUpd (d u : Dict) (k : String) :
    dlookup (d.map (fun p => (p.1, (dlookup u p.1).getD p.2))) k
      = (dlookup d k).map (fun w => (dlookup u k).getD w) := by
  induction d with
  | nil => rfl
  | cons p d ih =>
      by_cases hpk : p.1 = k
      · simp [dlookup, List.find?, hpk]
      · have hb : (p.1 == k) = false := by simpa using hpk
        simpa [dlookup, List.find?, hb] using ih

theorem dlookup_cons (p : String × JVal) (d : Dict) (k : String) :
    dlookup (p :: d) k = if p.1 = k then some p.2 else dlookup d k := by
  by_cases h : p.1 = k
  · simp [dlookup, List.find?, h]
  · have hb : (p.1 == k) = false := by simpa using h
    simp [dlookup, List.find?, hb, h]

theorem dlookup_filterNot (d u : Dict) (k : String) :
    dlookup (u.filter (fun p => !(hasKey d p.1))) k
      = if hasKey d k then none else dlookup u k := by
  induction u with
  | nil => cases h : hasKey d k <;> simp [dlookup, h]
  | cons q u ih =>
      rw [List.filter_cons]
      cases h : hasKey d q.1 with
      | true =>
          rw [if_neg (by simp [h]), ih]
          cases hdk : hasKey d k with
          | true => simp
          | false =>
              have hqk : q.1 ≠ k := fun he => by rw [he, hdk] at h; cases h
              simp [dlookup_cons, hqk]
      | false =>
          rw [if_pos (by simp [h])]
          by_cases hqk : q.1 = k
          · have hdk : hasKey d k = false := hqk ▸ h
            rw [dlookup_cons, if_pos hqk, hdk]
            simp [dlookup_cons, hqk]
          · rw [dlookup_cons, if_neg hqk, ih]
            cases hdk : hasKey d k <;> simp [hdk, dlookup_cons, hqk]

theorem dictUpdate_lookup_some (d : Dict) {u : Dict} {k : String} {v : JVal}
    (h : dlookup u k = some v) : dlookup (dictUpdate d u) k = some v := by
  unfold dictUpdate
  rw [dlookup_append, dlookup_mapUpd, dlookup_filterNot, h]
  cases hd : dlookup d k with
  | some w => simp [Option.or]
  | none =>
      have hdk : hasKey d k = false := by simp [hasKey, hd]
      simp [hdk, Option.or]

theorem dictUpdate_lookup_none (d : Dict) {u : Dict} {k : String}
    (h : dlookup u k = none) : dlookup (dictUpdate d u) k = dlookup d k := by
  unfold dictUpdate
  rw [dlookup_append, dlookup_mapUpd, dlookup_filterNot, h]
  cases hd : dlookup d k with
  | some w => simp [Option.or]
  | none =>
      have hdk : hasKey d k = false := by simp [hasKey, hd]
      simp [hdk, Option.or]

theorem dget_dictUpdate_some (d : Dict) {u : Dict} {k : String} {v : JVal}
    (h : dlookup u k = some v) : dget (dictUpdate d u) k = v := by
  rw [dget, dictUpdate_lookup_some d h]
  rfl

theorem hasKey_dictUpdate (d u : Dict) (k : String) :
    hasKey (dictUpdate d u) k = (hasKey d k || hasKey u k) := by
  cases h : dlookup u k with
  | none => rw [hasKey, dictUpdate_lookup_none d h]; simp [hasKey, h]
  | some v => rw [hasKey, dictUpdate_lookup_some d h]; simp [hasKey, h]

/-! ## The offline invariant (claim C1) -/

/-- The numeric telemetry keys named by the invariant: temperatures,
progress, position, and G-code line counters. -/
def numericTelemetryKeys : List String :=
  ["nozzle_temperature", "nozzle_target_temperature",
   "nozzle1_temperature", "nozzle1_target_temperature",
   "nozzle2_temperature", "nozzle2_target_temperature",
   "heated_bed_temperature", "heated_bed_target_temperature",
   "progress", "x", "y", "z", "total_lines", "current_line"]

/-- Condition `available = false` forces `status = "OFFLINE"` and every numeric
telemetry entry to be absent or `null` (`dget` returns `null` exactly in
those two cases). -/
def offlineInvariant (d : SnapmakerDevice) : Prop :=
  d.available = false →
    d.status = JVal.str "OFFLINE" ∧ ∀ k ∈ numericTelemetryKeys, dget d.data k = JVal.null

theorem offlineData_numeric_null (host : String) (model : Option String) :
    ∀ k ∈ numericTelemetryKeys, dget (offlineData host model) k = JVal.null := by
  intro k hk
  simp only [numericTelemetryKeys, List.mem_cons, List.not_mem_nil, or_false] at hk
  rcases hk with rfl | rfl | rfl | rfl | rfl | rfl | rfl | rfl | rfl | rfl | rfl | rfl | rfl | rfl
    <;> rfl

theorem offlineInvariant_setOffline (d : SnapmakerDevice) :
    offlineInvariant (setOffline d) :=
  fun _ => ⟨rfl, offlineData_numeric_null d.host d.model⟩

/-- The discovery triple written to `self._data` on a discovery match. -/
def discoveredData (ip mdl st : String) : Dict :=
  [("ip", JVal.str ip), ("model", JVal.str mdl), ("status", JVal.str st)]

theorem discoveredData_numeric_null (ip mdl st : String) :
    ∀ k ∈ numericTelemetryKeys, dget (discoveredData ip mdl st) k = JVal.null := by
  intro k hk
  simp only [numericTelemetryKeys, List.mem_cons, List.not_mem_nil, or_false] at hk
  rcases hk with rfl | rfl | rfl | rfl | rfl | rfl | rfl | rfl | rfl | rfl | rfl | rfl | rfl | rfl
    <;> rfl

theorem checkOnline_cases (dev : SnapmakerDevice) (att : List (List Datagram)) :
    (∃ ip mdl st, checkOnline dev att =
      { dev with
        available := true, model := some mdl, status := JVal.str st,
        data := discoveredData ip mdl st })
    ∨ checkOnline dev att = setOffline dev := by
  unfold checkOnline
  cases h : (att.take MAX_RETRIES).findSome? (fun ds => ds.findSome? (processDatagram dev.host)) with
  | none => right; rfl
  | some t =>
      left
      obtain ⟨ip, mdl, st⟩ := t
      exact ⟨ip, mdl, st, rfl⟩

theorem getStatus_offlineInvariant (dev : SnapmakerDevice) (resp : StatusResp)
    (hav : dev.available = true)
    (hdata : ∀ k ∈ numericTelemetryKeys, dget dev.data k = JVal.null) :
    offlineInvariant (getStatus dev resp) := by
  cases resp with
  | empty => exact fun _ => ⟨rfl, hdata⟩
  | badJson => exact fun _ => ⟨rfl, hdata⟩
  | netError => exact offlineInvariant_setOffline dev
  | httpError code =>
      simp only [getStatus]
      by_cases hc : code = 401
      · rw [if_pos hc]
        exact offlineInvariant_setOffline _
      · rw [if_neg hc]
        exact offlineInvariant_setOffline _
  | ok payload =>
      simp only [getStatus]
      cases hp : parseStatus payload with
      | none => exact offlineInvariant_setOffline _
      | some r =>
          intro hfalse
          rw [hav] at hfalse
          cases hfalse

theorem updateAuth_offlineInvariant (dev1 : SnapmakerDevice) (env : Env)
    (hav : dev1.available = true)
    (hdata : ∀ k ∈ numericTelemetryKeys, dget dev1.data k = JVal.null) :
    offlineInvariant (updateAuth dev1 env).dev := by
  unfold updateAuth
  set dev2 := if strTruthy dev1.token = false then { dev1 with token := env.tokenResult }
    else dev1 with hdev2
  have h2av : dev2.available = true := by
    rw [hdev2]
    split <;> exact hav
  have h2data : ∀ k ∈ numericTelemetryKeys, dget dev2.data k = JVal.null := by
    rw [hdev2]
    split <;> exact hdata
  by_cases ht : strTruthy dev2.token = true
  · rw [if_pos ht]
    exact getStatus_offlineInvariant dev2 env.statusResp h2av h2data
  · rw [if_neg ht]
    intro hfalse
    rw [h2av] at hfalse
    cases hfalse

theorem updateT_offlineInvariant (dev : SnapmakerDevice) (env : Env) :
    offlineInvariant (updateT dev env).dev := by
  unfold updateT
  rcases checkOnline_cases dev env.discovery with ⟨ip, mdl, st, hco⟩ | hco <;> rw [hco]
  · by_cases hst : JVal.str st = JVal.str "OFFLINE"
    · rw [if_neg (fun hcontra => hcontra.2 hst)]
      intro hfalse
      exact absurd hfalse (by simp)
    · rw [if_pos ⟨rfl, hst⟩]
      by_cases hr : checkReachable env.reachable = false
      · rw [if_pos hr]
        exact offlineInvariant_setOffline _
      · rw [if_neg hr]
        exact updateAuth_offlineInvariant _ env rfl (discoveredData_numeric_null ip mdl st)
  · have hfa : (setOffline dev).available = false := rfl
    rw [if_neg (fun hcontra => by rw [hfa] at hcontra; exact absurd hcontra.1 (by simp))]
    exact offlineInvariant_setOffline dev

/-- C1: for every state of a `SnapmakerDevice` reachable through any
sequence of `update()` calls (with any discovery/HTTP outcomes),
whenever `available` is `false` the `status` property equals
`"OFFLINE"` and every numeric telemetry entry of the data map
(temperatures, progress, x, y, z, total_lines, current_line) is absent
or `null` — never a stale or zero value carried over from a previous
online update (`dget` returns `JVal.null` exactly on absent-or-null
entries). -/
theorem offline_telemetry_invariant (host : String) (tok : Option String)
    (d : SnapmakerDevice) (hreach : ReachableDevice host tok d)
    (hoff : d.available = false) :
    d.status = JVal.str "OFFLINE" ∧
      ∀ k ∈ numericTelemetryKeys, dget d.data k = JVal.null := by
  revert hoff
  induction hreach with
  | init => exact fun _ => ⟨rfl, fun k _ => rfl⟩
  | step d env hd ih => exact updateT_offlineInvariant d env

/-- Witness for C1 at the freshly constructed device (reachable by the
empty update sequence), whose `available` is `false`. -/
theorem offline_telemetry_invariant_witness :
    (SnapmakerDevice.init "192.168.1.100" none).status = JVal.str "OFFLINE" ∧
      ∀ k ∈ numericTelemetryKeys,
        dget (SnapmakerDevice.init "192.168.1.100" none).data k = JVal.null :=
  offline_telemetry_invariant "192.168.1.100" none _ ReachableDevice.init rfl

/-! ## Claim C4: 401 vs other HTTP errors -/

/-- C4: for every status fetch performed with a cached token, a 401
HTTP error clears the cached token (`token = none`) and transitions the
device to offline, while any other HTTP error leaves the token
unchanged and also transitions the device to offline. -/
theorem http_error_token_handling (dev : SnapmakerDevice) :
    ((getStatus dev (StatusResp.httpError 401)).token = none ∧
     (getStatus dev (StatusResp.httpError 401)).available = false ∧
     (getStatus dev (StatusResp.httpError 401)).status = JVal.str "OFFLINE") ∧
    ∀ code : ℕ, code ≠ 401 →
      (getStatus dev (StatusResp.httpError code)).token = dev.token ∧
      (getStatus dev (StatusResp.httpError code)).available = false ∧
      (getStatus dev (StatusResp.httpError code)).status = JVal.str "OFFLINE" := by
  constructor
  · exact ⟨rfl, rfl, rfl⟩
  · intro code hc
    simp only [getStatus, if_neg hc]
    exact ⟨rfl, rfl, rfl⟩

/-- A concrete device state as produced by a successful discovery with a
cached token, used to instantiate hypotheses of the payload theorems. -/
def devOnline : SnapmakerDevice :=
  { host := "192.168.1.100", token := some "tok",
    data := discoveredData "192.168.1.100" "A350" "IDLE",
    rawApiResponse := [], available := true, model := some "A350",
    status := JVal.str "IDLE", dualExtruder := false }

/-- Witness for C4: a 401 clears the cached token of `devOnline`, a 404
keeps it. -/
theorem http_error_token_handling_witness :
    (getStatus devOnline (StatusResp.httpError 401)).token = none ∧
    (getStatus devOnline (StatusResp.httpError 404)).token = some "tok" :=
  ⟨(http_error_token_handling devOnline).1.1,
   ((http_error_token_handling devOnline).2 404 (by decide)).1⟩

/-! ## Claim C10: the `"model"` entry and the token under `_set_offline` -/

/-- C10 (amended): on every transition to the offline state via
`_set_offline`, the `"model"` entry of the resulting telemetry map
equals the cached model when that model exists and is nonempty, and
`"N/A"` when the cached model is `None` or the empty string (Python
`self._model or "N/A"` treats `""` as falsy); the cached model field
itself and the cached token are left unchanged. -/
theorem setOffline_model_token_frame (d : SnapmakerDevice) :
    ((d.model = none ∨ d.model = some "" →
        dget (setOffline d).data "model" = JVal.str "N/A") ∧
     (∀ m, d.model = some m → m ≠ "" →
        dget (setOffline d).data "model" = JVal.str m)) ∧
    (setOffline d).model = d.model ∧ (setOffline d).token = d.token := by
  have hbase : dget (setOffline d).data "model" = JVal.str (pyOrStr d.model "N/A") := rfl
  refine ⟨⟨?_, ?_⟩, rfl, rfl⟩
  · rintro (h | h) <;> rw [hbase, h] <;> simp [pyOrStr]
  · intro m hm hne
    rw [hbase, hm]
    simp [pyOrStr, hne]

/-- A device whose last discovered model is the empty string (obtained
from the well-formed discovery reply `"IP@192.168.1.100|Model:|Status:IDLE"`). -/
def devEmptyModel : SnapmakerDevice :=
  { host := "192.168.1.100", token := some "tok",
    data := discoveredData "192.168.1.100" "" "IDLE",
    rawApiResponse := [], available := true, model := some "",
    status := JVal.str "IDLE", dualExtruder := false }

/-- C10 counterexample: a discovered model can be the empty string, and
then `_set_offline` writes `"N/A"` rather than the cached model, so the
claim's "equals the last successfully discovered model when one exists"
fails as stated. -/
theorem setOffline_model_empty_counterexample :
    (checkOnline (SnapmakerDevice.init "192.168.1.100" none)
        [[⟨some "IP@192.168.1.100|Model:|Status:IDLE", "192.168.1.100"⟩]]).model
      = some "" ∧
    devEmptyModel.model = some "" ∧
    dget (setOffline devEmptyModel).data "model" = JVal.str "N/A" ∧
    JVal.str "N/A" ≠ JVal.str "" := by
  refine ⟨by decide, rfl, rfl, by decide⟩

/-- Witness for C10 at a device with model `"A350"` and at one with no
model. -/
theorem setOffline_model_token_frame_witness :
    dget (setOffline devOnline).data "model" = JVal.str "A350" ∧
    dget (setOffline (SnapmakerDevice.init "192.168.1.100" none)).data "model"
      = JVal.str "N/A" :=
  ⟨(setOffline_model_token_frame devOnline).1.2 "A350" rfl (by decide),
   (setOffline_model_token_frame (SnapmakerDevice.init "192.168.1.100" none)).1.1
     (Or.inl rfl)⟩

/-! ## Claim C6: malformed discovery replies -/

/-- A decoded discovery reply is malformed in the sense of the claim:
fewer than three `|`-separated fields, or a missing `@`/`:` separator in
the first three fields. -/
def malformedReply (s : String) : Bool :=
  match pySplit '|' s with
  | snIp :: snModel :: snStatus :: _ =>
      !(pyContains '@' snIp && pyContains ':' snModel && pyContains ':' snStatus)
  | _ => true

/-- A discovery reply datagram is malformed: invalid UTF-8, or a
malformed decoded reply. -/
def malformedDatagram (dg : Datagram) : Bool :=
  match dg.text with
  | none => true
  | some s => malformedReply s

theorem processReply_malformed (host addr s : String)
    (h : malformedReply s = true) : processReply host addr s = none := by
  unfold malformedReply at h
  unfold processReply
  rcases hsp : pySplit '|' s with _ | ⟨snIp, _ | ⟨snModel, _ | ⟨snStatus, rest⟩⟩⟩ <;>
      simp only [hsp] at h ⊢
  rw [Bool.not_eq_true'] at h
  rw [h]
  rfl

theorem processDatagram_malformed (host : String) (dg : Datagram)
    (h : malformedDatagram dg = true) : processDatagram host dg = none := by
  unfold malformedDatagram at h
  unfold processDatagram
  cases hdg : dg.text with
  | none => rfl
  | some s =>
      rw [hdg] at h
      exact processReply_malformed host dg.addr s h

/-- C6: for every sequence of discovery attempts consisting entirely of
malformed replies (missing `@`/`:` separators, fewer than three
`|`-separated fields, or invalid UTF-8), `_check_online` raises no
exception (it is a total function), skips every malformed reply, and
after exhausting all `MAX_RETRIES = 5` attempts sets the device offline
(`available = false`, `status = "OFFLINE"`). -/
theorem malformed_discovery_offline (dev : SnapmakerDevice)
    (attempts : List (List Datagram))
    (h : ∀ ds ∈ attempts, ∀ dg ∈ ds, malformedDatagram dg = true) :
    checkOnline dev attempts = setOffline dev ∧
    (checkOnline dev attempts).available = false ∧
    (checkOnline dev attempts).status = JVal.str "OFFLINE" := by
  have hall : (attempts.take MAX_RETRIES).findSome?
      (fun ds => ds.findSome? (processDatagram dev.host)) = none := by
    rw [List.findSome?_eq_none_iff]
    intro ds hds
    rw [List.findSome?_eq_none_iff]
    intro dg hdg
    exact processDatagram_malformed dev.host dg (h ds (List.take_subset _ attempts hds) dg hdg)
  have hco : checkOnline dev attempts = setOffline dev := by
    unfold checkOnline
    rw [hall]
  exact ⟨hco, by rw [hco]; rfl, by rw [hco]; rfl⟩

/-- Five discovery attempts whose replies exhibit each malformation
kind: undecodable bytes, a single field, and three fields missing their
`@`/`:` separators. -/
def malformedAttempts : List (List Datagram) :=
  [[⟨none, "192.168.1.7"⟩],
   [⟨some "garbage without pipes", "192.168.1.7"⟩],
   [⟨some "IP192.168.1.7|Model-A350|Status-IDLE", "192.168.1.7"⟩],
   [], []]

/-- Witness for C6 on `malformedAttempts`. -/
theorem malformed_discovery_offline_witness :
    checkOnline (SnapmakerDevice.init "192.168.1.7" none) malformedAttempts
      = setOffline (SnapmakerDevice.init "192.168.1.7" none) ∧
    (checkOnline (SnapmakerDevice.init "192.168.1.7" none) malformedAttempts).available
      = false ∧
    (checkOnline (SnapmakerDevice.init "192.168.1.7" none) malformedAttempts).status
      = JVal.str "OFFLINE" :=
  malformed_discovery_offline (SnapmakerDevice.init "192.168.1.7" none)
    malformedAttempts (by decide)

/-! ## Claim C7: unreachable after successful discovery -/

/-- C7: whenever discovery succeeds (`available = true` and the
discovered status is not `"OFFLINE"`) but the TCP reachability precheck
fails on both of its bounded attempts, `update()` sets the device
offline and returns the defaulted offline telemetry map without issuing
any HTTP request (neither token acquisition nor a status fetch). -/
theorem unreachable_no_http (dev : SnapmakerDevice) (env : Env)
    (hav : (checkOnline dev env.discovery).available = true)
    (hst : (checkOnline dev env.discovery).status ≠ JVal.str "OFFLINE")
    (hr : env.reachable = [false, false]) :
    (updateT dev env).dev = setOffline (checkOnline dev env.discovery) ∧
    (updateT dev env).ret
      = offlineData (checkOnline dev env.discovery).host
          (checkOnline dev env.discovery).model ∧
    (updateT dev env).tokenRequested = false ∧
    (updateT dev env).statusRequested = false := by
  have hcr : checkReachable env.reachable = false := by rw [hr]; rfl
  unfold updateT
  rw [if_pos ⟨hav, hst⟩, if_pos hcr]
  exact ⟨rfl, rfl, rfl, rfl⟩

/-- Environment for the C7 witness: one good discovery reply, two failed
TCP probes; the HTTP parts of the environment are irrelevant. -/
def envUnreachable : Env :=
  { discovery := [[⟨some "IP@192.168.1.100|Model:A350|Status:IDLE", "192.168.1.100"⟩]],
    reachable := [false, false],
    tokenResult := some "tok",
    statusResp := StatusResp.netError }

/-- Witness for C7. -/
theorem unreachable_no_http_witness :
    (updateT (SnapmakerDevice.init "192.168.1.100" none) envUnreachable).dev
      = setOffline (checkOnline (SnapmakerDevice.init "192.168.1.100" none)
          envUnreachable.discovery) ∧
    (updateT (SnapmakerDevice.init "192.168.1.100" none) envUnreachable).ret
      = offlineData "192.168.1.100" (some "A350") ∧
    (updateT (SnapmakerDevice.init "192.168.1.100" none) envUnreachable).tokenRequested
      = false ∧
    (updateT (SnapmakerDevice.init "192.168.1.100" none) envUnreachable).statusRequested
      = false := by
  have h := unreachable_no_http (SnapmakerDevice.init "192.168.1.100" none)
    envUnreachable (by decide) (by decide) rfl
  exact ⟨h.1, h.2.1, h.2.2⟩

/-! ## Claim C2: terminal outcomes of `update()` -/

theorem parseStatus_eq_some {payload : Dict} {r : ParsedStatus}
    (hp : parseStatus payload = some r) :
    ∃ f, parseFallible payload = some f ∧
      r = { status := dget payload "status",
            dualExtruder := computeDualExtruder payload,
            upd := statusUpdDict payload f.1 f.2.1 f.2.2.1 f.2.2.2 } := by
  unfold parseStatus at hp
  rcases hf : parseFallible payload with _ | f
  · rw [hf] at hp
    cases hp
  · rw [hf] at hp
    exact ⟨f, rfl, (Option.some.inj hp).symm⟩

/-- The telemetry keys that every successful status parse writes. -/
def populatedTelemetryKeys : List String :=
  ["status", "heated_bed_temperature", "heated_bed_target_temperature", "file_name",
   "progress", "elapsed_time", "remaining_time", "estimated_time", "tool_head",
   "x", "y", "z", "homing", "is_filament_out", "is_door_open", "has_enclosure",
   "has_rotary_module", "has_emergency_stop", "has_air_purifier", "total_lines",
   "current_line"]

/-- A telemetry map is populated when it binds every key a successful
status parse writes. -/
def populatedTelemetry (d : Dict) : Prop :=
  ∀ k ∈ populatedTelemetryKeys, hasKey d k = true

/-- A telemetry map holding exactly the discovery triple. -/
def discoveryTripleShape (d : Dict) : Prop :=
  ∃ ip mdl st, d = discoveredData ip mdl st

theorem statusUpdDict_hasKey_base (payload : Dict) (p : JVal) (e rm es : String) :
    ∀ k ∈ populatedTelemetryKeys, hasKey (statusUpdDict payload p e rm es) k = true := by
  intro k hk
  simp only [populatedTelemetryKeys, List.mem_cons, List.not_mem_nil, or_false] at hk
  rcases hk with rfl | rfl | rfl | rfl | rfl | rfl | rfl | rfl | rfl | rfl | rfl | rfl | rfl |
    rfl | rfl | rfl | rfl | rfl | rfl | rfl | rfl <;> rfl

theorem getStatus_outcomes (dev2 : SnapmakerDevice) (resp : StatusResp)
    (hav : dev2.available = true) :
    ((getStatus dev2 resp).available = true ∧ populatedTelemetry (getStatus dev2 resp).data) ∨
    ((getStatus dev2 resp).available = false ∧
      (getStatus dev2 resp).data
        = offlineData (getStatus dev2 resp).host (getStatus dev2 resp).model) ∨
    ((getStatus dev2 resp).available = false ∧ (getStatus dev2 resp).data = dev2.data ∧
      (resp = StatusResp.empty ∨ resp = StatusResp.badJson)) := by
  cases resp with
  | empty => exact Or.inr (Or.inr ⟨rfl, rfl, Or.inl rfl⟩)
  | badJson => exact Or.inr (Or.inr ⟨rfl, rfl, Or.inr rfl⟩)
  | netError => exact Or.inr (Or.inl ⟨rfl, rfl⟩)
  | httpError code =>
      simp only [getStatus]
      by_cases hc : code = 401
      · rw [if_pos hc]
        exact Or.inr (Or.inl ⟨rfl, rfl⟩)
      · rw [if_neg hc]
        exact Or.inr (Or.inl ⟨rfl, rfl⟩)
  | ok payload =>
      simp only [getStatus]
      cases hp : parseStatus payload with
      | none => exact Or.inr (Or.inl ⟨rfl, rfl⟩)
      | some r =>
          left
          refine ⟨hav, ?_⟩
          obtain ⟨f, hf, hr⟩ := parseStatus_eq_some hp
          subst hr
          show ∀ k ∈ populatedTelemetryKeys,
            hasKey (dictUpdate dev2.data (statusUpdDict payload f.1 f.2.1 f.2.2.1 f.2.2.2)) k
              = true
          intro k hk
          rw [hasKey_dictUpdate, statusUpdDict_hasKey_base payload f.1 f.2.1 f.2.2.1 f.2.2.2 k hk,
            Bool.or_true]

theorem updateAuth_outcomes (dev1 : SnapmakerDevice) (env : Env)
    (hav : dev1.available = true) (ip mdl st : String)
    (hdata : dev1.data = discoveredData ip mdl st) :
    ((updateAuth dev1 env).dev.available = true ∧
      populatedTelemetry (updateAuth dev1 env).ret) ∨
    ((updateAuth dev1 env).dev.available = false ∧
      (updateAuth dev1 env).ret
        = offlineData (updateAuth dev1 env).dev.host (updateAuth dev1 env).dev.model) ∨
    ((updateAuth dev1 env).dev.available = true ∧
      (updateAuth dev1 env).statusRequested = false ∧
      discoveryTripleShape (updateAuth dev1 env).ret) ∨
    ((updateAuth dev1 env).dev.available = false ∧
      discoveryTripleShape (updateAuth dev1 env).ret ∧
      (env.statusResp = StatusResp.empty ∨ env.statusResp = StatusResp.badJson)) := by
  unfold updateAuth
  set dev2 := if strTruthy dev1.token = false then { dev1 with token := env.tokenResult }
    else dev1 with hdev2
  have h2av : dev2.available = true := by
    rw [hdev2]
    split <;> exact hav
  have h2data : dev2.data = discoveredData ip mdl st := by
    rw [hdev2]
    split <;> exact hdata
  by_cases ht : strTruthy dev2.token = true
  · rw [if_pos ht]
    rcases getStatus_outcomes dev2 env.statusResp h2av with h | h | h
    · exact Or.inl h
    · exact Or.inr (Or.inl h)
    · refine Or.inr (Or.inr (Or.inr ⟨h.1, ?_, h.2.2⟩))
      show discoveryTripleShape (getStatus dev2 env.statusResp).data
      rw [h.2.1, h2data]
      exact ⟨ip, mdl, st, rfl⟩
  · rw [if_neg ht]
    refine Or.inr (Or.inr (Or.inl ⟨h2av, rfl, ?_⟩))
    show discoveryTripleShape dev2.data
    rw [h2data]
    exact ⟨ip, mdl, st, rfl⟩

/-- C2 (amended): `update()` is a total function (expected failures are
converted to state, never raised), and the per-call terminal outcome is
one of: (1) online with a fully populated telemetry map; (2) offline
with the defaulted offline telemetry map; (3) online with only the
discovery triple, when the discovered status is `"OFFLINE"` or token
acquisition fails so that no status fetch is issued; (4) offline but
retaining the discovery triple, when the status response has an empty
body or undecodable JSON. -/
theorem update_terminal_outcomes (dev : SnapmakerDevice) (env : Env) :
    ((updateT dev env).dev.available = true ∧ populatedTelemetry (updateT dev env).ret) ∨
    ((updateT dev env).dev.available = false ∧
      (updateT dev env).ret
        = offlineData (updateT dev env).dev.host (updateT dev env).dev.model) ∨
    ((updateT dev env).dev.available = true ∧ (updateT dev env).statusRequested = false ∧
      discoveryTripleShape (updateT dev env).ret) ∨
    ((updateT dev env).dev.available = false ∧
      discoveryTripleShape (updateT dev env).ret ∧
      (env.statusResp = StatusResp.empty ∨ env.statusResp = StatusResp.badJson)) := by
  unfold updateT
  rcases checkOnline_cases dev env.discovery with ⟨ip, mdl, st, hco⟩ | hco <;> rw [hco]
  · by_cases hst : JVal.str st = JVal.str "OFFLINE"
    · rw [if_neg (fun hcontra => hcontra.2 hst)]
      exact Or.inr (Or.inr (Or.inl ⟨rfl, rfl, ⟨ip, mdl, st, rfl⟩⟩))
    · rw [if_pos ⟨rfl, hst⟩]
      by_cases hr : checkReachable env.reachable = false
      · rw [if_pos hr]
        exact Or.inr (Or.inl ⟨rfl, rfl⟩)
      · rw [if_neg hr]
        exact updateAuth_outcomes _ env rfl ip mdl st rfl
  · have hfa : (setOffline dev).available = false := rfl
    rw [if_neg (fun hcontra => by rw [hfa] at hcontra; exact absurd hcontra.1 (by simp))]
    exact Or.inr (Or.inl ⟨rfl, rfl⟩)

/-- Environment in which discovery succeeds but token acquisition fails
(`_get_token` returns `None`): the update ends online with an
unpopulated telemetry map and no status request. -/
def envTokenFail : Env :=
  { discovery := [[⟨some "IP@192.168.1.100|Model:A350|Status:IDLE", "192.168.1.100"⟩]],
    reachable := [true],
    tokenResult := none,
    statusResp := StatusResp.netError }

/-- C2 counterexample: after a successful discovery with failed token
acquisition, `update()` terminates with `available = true` but a
telemetry map that carries none of the telemetry keys (only the
discovery triple) — a third outcome the claim rules out. -/
theorem update_third_outcome_counterexample :
    (updateT (SnapmakerDevice.init "192.168.1.100" none) envTokenFail).dev.available = true ∧
    hasKey (updateT (SnapmakerDevice.init "192.168.1.100" none) envTokenFail).ret "progress"
      = false ∧
    hasKey (updateT (SnapmakerDevice.init "192.168.1.100" none) envTokenFail).ret
      "heated_bed_temperature" = false ∧
    (updateT (SnapmakerDevice.init "192.168.1.100" none) envTokenFail).statusRequested
      = false := by
  decide

/-! ## Claims C3, C5, C8, C9: properties of the parsed status payload -/

theorem parseFallible_eq_some {payload : Dict} {f : JVal × String × String × String}
    (hf : parseFallible payload = some f) :
    progressField (dget payload "progress") = some f.1 ∧
    durationField (dget payload "elapsedTime") = some f.2.1 ∧
    durationField (dget payload "remainingTime") = some f.2.2.1 ∧
    durationField (dget payload "estimatedTime") = some f.2.2.2 := by
  unfold parseFallible at hf
  rcases h1 : progressField (dget payload "progress") with _ | p <;> rw [h1] at hf
  · exact Option.noConfusion hf
  rcases h2 : durationField (dget payload "elapsedTime") with _ | e <;> rw [h2] at hf
  · exact Option.noConfusion hf
  rcases h3 : durationField (dget payload "remainingTime") with _ | rm <;> rw [h3] at hf
  · exact Option.noConfusion hf
  rcases h4 : durationField (dget payload "estimatedTime") with _ | es <;> rw [h4] at hf
  · exact Option.noConfusion hf
  obtain rfl := Option.some.inj hf
  exact ⟨rfl, rfl, rfl, rfl⟩

theorem getStatus_ok_data {dev : SnapmakerDevice} {payload : Dict} {r : ParsedStatus}
    (hp : parseStatus payload = some r) :
    (getStatus dev (StatusResp.ok payload)).data = dictUpdate dev.data r.upd := by
  simp only [getStatus, hp]

theorem getStatus_ok_dual {dev : SnapmakerDevice} {payload : Dict} {r : ParsedStatus}
    (hp : parseStatus payload = some r) :
    (getStatus dev (StatusResp.ok payload)).dualExtruder = r.dualExtruder := by
  simp only [getStatus, hp]

theorem dget_of_not_hasKey {d : Dict} {k : String} (h : hasKey d k = false) :
    dget d k = JVal.null := by
  unfold hasKey at h
  unfold dget
  cases hd : dlookup d k with
  | none => rfl
  | some v => rw [hd] at h; cases h

/-- C3 (amended): for every successfully parsed online status payload,
a raw `progress` of `0.5` yields the telemetry entry `50.0`, while an
absent raw `progress` key yields the telemetry entry `0` — not the
explicit-unknown `null` marker, which `_get_status` uses only on the
offline path. -/
theorem progress_conversion (dev : SnapmakerDevice) (payload : Dict) (r : ParsedStatus)
    (hp : parseStatus payload = some r) :
    (dget payload "progress" = JVal.num (mkRat 1 2) →
      dget (getStatus dev (StatusResp.ok payload)).data "progress" = JVal.num 50) ∧
    (hasKey payload "progress" = false →
      dget (getStatus dev (StatusResp.ok payload)).data "progress" = JVal.num 0) ∧
    JVal.num 0 ≠ JVal.null ∧ (mkRat 1 2 : ℚ) = 1 / 2 := by
  obtain ⟨f, hf, hr⟩ := parseStatus_eq_some hp
  obtain ⟨h1, _h2, _h3, _h4⟩ := parseFallible_eq_some hf
  have hup : dlookup r.upd "progress" = some f.1 := by rw [hr]; rfl
  have hget : dget (getStatus dev (StatusResp.ok payload)).data "progress" = f.1 := by
    rw [getStatus_ok_data hp]
    exact dget_dictUpdate_some dev.data hup
  refine ⟨?_, ?_, by decide, by norm_num [Rat.mkRat_eq_divInt, Rat.divInt_eq_div]⟩
  · intro hv
    rw [hv] at h1
    have hc : progressField (JVal.num (mkRat 1 2)) = some (JVal.num 50) := by decide
    rw [hc] at h1
    rw [hget]
    exact (Option.some.inj h1).symm
  · intro hk
    rw [dget_of_not_hasKey hk] at h1
    have hc : progressField JVal.null = some (JVal.num 0) := rfl
    rw [hc] at h1
    rw [hget]
    exact (Option.some.inj h1).symm

/-- The status payload `{"progress": 0.5}`. -/
def payloadHalf : Dict := [("progress", JVal.num (mkRat 1 2))]

/-- A status payload with no `progress` key. -/
def payloadNoProgress : Dict := [("status", JVal.str "IDLE")]

/-- C3 counterexample: on the online path an absent raw `progress` key
produces the telemetry entry `0`, not the explicit-unknown marker
(`null`/absent) the claim requires. -/
theorem progress_absent_zero_counterexample :
    hasKey payloadNoProgress "progress" = false ∧
    dget (getStatus devOnline (StatusResp.ok payloadNoProgress)).data "progress"
      = JVal.num 0 ∧
    JVal.num 0 ≠ JVal.null := by
  decide

/-- Witness for C3 (amended) on `payloadHalf` and `payloadNoProgress`. -/
theorem progress_conversion_witness :
    dget (getStatus devOnline (StatusResp.ok payloadHalf)).data "progress" = JVal.num 50 ∧
    dget (getStatus devOnline (StatusResp.ok payloadNoProgress)).data "progress"
      = JVal.num 0 :=
  ⟨(progress_conversion devOnline payloadHalf _ rfl).1 rfl,
   (progress_conversion devOnline payloadNoProgress _ rfl).2.1 rfl⟩

/-- C5 (dual-extruder detection): for every successfully parsed status
payload, the presence of both `nozzle1Temperature` and
`nozzle2Temperature` keys sets `dual_extruder = true`; a payload with
only `nozzleTemperature` (no `nozzle1`/`nozzle2` pair) sets it to
`false`; and the fallback rule (`toolHead == "TOOLHEAD_3DPRINTING_1"`,
`nozzleTemperature` absent, `nozzle1Temperature` present) sets
`dual_extruder = true` and the `tool_head` telemetry entry to
`"Dual Extruder"`. -/
theorem dual_extruder_detection (dev : SnapmakerDevice) (payload : Dict) (r : ParsedStatus)
    (hp : parseStatus payload = some r) :
    (hasKey payload "nozzle1Temperature" = true →
      hasKey payload "nozzle2Temperature" = true →
      (getStatus dev (StatusResp.ok payload)).dualExtruder = true) ∧
    (hasKey payload "nozzleTemperature" = true →
      hasKey payload "nozzle1Temperature" = false →
      hasKey payload "nozzle2Temperature" = false →
      (getStatus dev (StatusResp.ok payload)).dualExtruder = false) ∧
    (dgetD payload "toolHead" (JVal.str "") = JVal.str "TOOLHEAD_3DPRINTING_1" →
      hasKey payload "nozzleTemperature" = false →
      hasKey payload "nozzle1Temperature" = true →
      (getStatus dev (StatusResp.ok payload)).dualExtruder = true ∧
      dget (getStatus dev (StatusResp.ok payload)).data "tool_head"
        = JVal.str "Dual Extruder") := by
  obtain ⟨f, hf, hr⟩ := parseStatus_eq_some hp
  have hdual : (getStatus dev (StatusResp.ok payload)).dualExtruder
      = computeDualExtruder payload := by
    rw [getStatus_ok_dual hp, hr]
  refine ⟨?_, ?_, ?_⟩
  · intro hn1 hn2
    rw [hdual]
    simp [computeDualExtruder, hn1, hn2]
  · intro hnoz hn1 hn2
    rw [hdual]
    simp [computeDualExtruder, dualFallback, hn1, hn2]
  · intro hth hnoz hn1
    have hfb : dualFallback payload = true := by
      simp [dualFallback, hth, hnoz, hn1]
    constructor
    · rw [hdual]
      simp [computeDualExtruder, hfb]
    · have hup : dlookup r.upd "tool_head"
          = some (if dualFallback payload then JVal.str "Dual Extruder"
                  else toolheadDisplay (dgetD payload "toolHead" (JVal.str ""))) := by
        rw [hr]; rfl
      rw [hfb] at hup
      rw [getStatus_ok_data hp]
      exact dget_dictUpdate_some dev.data (by simpa using hup)

/-- The payload with both per-nozzle temperature keys. -/
def payloadDualNozzles : Dict :=
  [("nozzle1Temperature", JVal.num 200), ("nozzle2Temperature", JVal.num 195)]

/-- The payload with only the single-nozzle temperature key. -/
def payloadSingleNozzle : Dict := [("nozzleTemperature", JVal.num 200)]

/-- The vendor-inconsistency payload triggering the fallback rule. -/
def payloadFallbackDual : Dict :=
  [("toolHead", JVal.str "TOOLHEAD_3DPRINTING_1"), ("nozzle1Temperature", JVal.num 200)]

/-- Witness for C5 on the three concrete payloads. -/
theorem dual_extruder_detection_witness :
    (getStatus devOnline (StatusResp.ok payloadDualNozzles)).dualExtruder = true ∧
    (getStatus devOnline (StatusResp.ok payloadSingleNozzle)).dualExtruder = false ∧
    (getStatus devOnline (StatusResp.ok payloadFallbackDual)).dualExtruder = true ∧
    dget (getStatus devOnline (StatusResp.ok payloadFallbackDual)).data "tool_head"
      = JVal.str "Dual Extruder" := by
  refine ⟨(dual_extruder_detection devOnline payloadDualNozzles _ rfl).1 rfl rfl,
    (dual_extruder_detection devOnline payloadSingleNozzle _ rfl).2.1 rfl rfl rfl,
    ?_, ?_⟩
  · exact ((dual_extruder_detection devOnline payloadFallbackDual _ rfl).2.2 rfl rfl rfl).1
  · exact ((dual_extruder_detection devOnline payloadFallbackDual _ rfl).2.2 rfl rfl rfl).2

/-! ## Claim C8: duration formatting -/

theorem roundHalfEvenND_den_one (z : ℤ) : roundHalfEvenND z 1 = z := by
  unfold roundHalfEvenND
  simp

theorem tdTotalMicros_natCast (n : ℕ) : tdTotalMicros (n : ℚ) = (n : ℤ) * 1000000 := by
  unfold tdTotalMicros
  rw [Rat.num_natCast, Rat.den_natCast, roundHalfEvenND_den_one]

theorem durationField_natCast (n : ℕ) :
    durationField (JVal.num (n : ℚ)) = some (pyTimedeltaRepr ((n : ℤ) * 1000000)) := by
  show some (pyTimedeltaRepr (tdTotalMicros (n : ℚ))) = _
  rw [tdTotalMicros_natCast]

/-- C8: for every successfully parsed online status payload and each of
the duration keys, a raw value of `n` seconds produces the telemetry
entry `str(timedelta(seconds=n))` — the `H:MM:SS` rendering — while an
absent raw key produces the placeholder `"00:00:00"`. -/
theorem duration_formatting (dev : SnapmakerDevice) (payload : Dict) (r : ParsedStatus)
    (hp : parseStatus payload = some r) :
    ((∀ n : ℕ, dget payload "elapsedTime" = JVal.num n →
        dget (getStatus dev (StatusResp.ok payload)).data "elapsed_time"
          = JVal.str (pyTimedeltaRepr ((n : ℤ) * 1000000))) ∧
     (hasKey payload "elapsedTime" = false →
        dget (getStatus dev (StatusResp.ok payload)).data "elapsed_time"
          = JVal.str "00:00:00")) ∧
    ((∀ n : ℕ, dget payload "remainingTime" = JVal.num n →
        dget (getStatus dev (StatusResp.ok payload)).data "remaining_time"
          = JVal.str (pyTimedeltaRepr ((n : ℤ) * 1000000))) ∧
     (hasKey payload "remainingTime" = false →
        dget (getStatus dev (StatusResp.ok payload)).data "remaining_time"
          = JVal.str "00:00:00")) ∧
    ((∀ n : ℕ, dget payload "estimatedTime" = JVal.num n →
        dget (getStatus dev (StatusResp.ok payload)).data "estimated_time"
          = JVal.str (pyTimedeltaRepr ((n : ℤ) * 1000000))) ∧
     (hasKey payload "estimatedTime" = false →
        dget (getStatus dev (StatusResp.ok payload)).data "estimated_time"
          = JVal.str "00:00:00")) := by
  obtain ⟨f, hf, hr⟩ := parseStatus_eq_some hp
  obtain ⟨_h1, h2, h3, h4⟩ := parseFallible_eq_some hf
  have he : dget (getStatus dev (StatusResp.ok payload)).data "elapsed_time"
      = JVal.str f.2.1 := by
    rw [getStatus_ok_data hp]
    exact dget_dictUpdate_some dev.data (by rw [hr]; rfl)
  have hrm : dget (getStatus dev (StatusResp.ok payload)).data "remaining_time"
      = JVal.str f.2.2.1 := by
    rw [getStatus_ok_data hp]
    exact dget_dictUpdate_some dev.data (by rw [hr]; rfl)
  have hes : dget (getStatus dev (StatusResp.ok payload)).data "estimated_time"
      = JVal.str f.2.2.2 := by
    rw [getStatus_ok_data hp]
    exact dget_dictUpdate_some dev.data (by rw [hr]; rfl)
  refine ⟨⟨?_, ?_⟩, ⟨?_, ?_⟩, ⟨?_, ?_⟩⟩
  · intro n hv
    rw [hv, durationField_natCast] at h2
    rw [he, ← Option.some.inj h2]
  · intro hk
    rw [dget_of_not_hasKey hk] at h2
    rw [he, ← Option.some.inj h2]
  · intro n hv
    rw [hv, durationField_natCast] at h3
    rw [hrm, ← Option.some.inj h3]
  · intro hk
    rw [dget_of_not_hasKey hk] at h3
    rw [hrm, ← Option.some.inj h3]
  · intro n hv
    rw [hv, durationField_natCast] at h4
    rw [hes, ← Option.some.inj h4]
  · intro hk
    rw [dget_of_not_hasKey hk] at h4
    rw [hes, ← Option.some.inj h4]

/-- The payload `{"elapsedTime": 3661}` (and no other duration keys). -/
def payloadElapsed : Dict := [("elapsedTime", JVal.num ((3661 : ℕ) : ℚ))]

/-- Witness for C8: 3661 seconds renders as `"1:01:01"`, and the absent
`remainingTime` key yields the `"00:00:00"` placeholder. -/
theorem duration_formatting_witness :
    dget (getStatus devOnline (StatusResp.ok payloadElapsed)).data "elapsed_time"
      = JVal.str "1:01:01" ∧
    dget (getStatus devOnline (StatusResp.ok payloadElapsed)).data "remaining_time"
      = JVal.str "00:00:00" :=
  ⟨((duration_formatting devOnline payloadElapsed _ rfl).1.1 3661 rfl).trans (by decide),
   (duration_formatting devOnline payloadElapsed _ rfl).2.1.2 rfl⟩

/-! ## Claim C9: conditional CNC/laser fields -/

theorem dlookup_condEntry_self (k : String) (v : JVal) :
    dlookup (condEntry k v) k = if v = JVal.null then none else some v := by
  by_cases hv : v = JVal.null
  · rw [if_pos hv]
    unfold condEntry
    rw [if_pos hv]
    rfl
  · rw [if_neg hv]
    unfold condEntry
    rw [if_neg hv, dlookup_cons, if_pos rfl]

theorem dlookup_condEntry_ne {a k : String} (v : JVal) (h : a ≠ k) :
    dlookup (condEntry a v) k = none := by
  unfold condEntry
  by_cases hv : v = JVal.null
  · rw [if_pos hv]
    rfl
  · rw [if_neg hv, dlookup_cons, if_neg h]
    rfl

theorem dlookup_statusUpdDict_spindle (payload : Dict) (p : JVal) (e rm es : String) :
    dlookup (statusUpdDict payload p e rm es) "spindle_speed"
      = if dget payload "spindleSpeed" = JVal.null then none
        else some (dget payload "spindleSpeed") := by
  unfold statusUpdDict
  rw [dlookup_append, dlookup_append, dlookup_append, dlookup_append]
  have hbase : dlookup (baseUpd payload p e rm es) "spindle_speed" = none := rfl
  have hnoz : dlookup (nozzleEntries (computeDualExtruder payload) payload)
      "spindle_speed" = none := by
    unfold nozzleEntries
    split <;> rfl
  rw [hbase, dlookup_condEntry_self, dlookup_condEntry_ne _ (by decide),
    dlookup_condEntry_ne _ (by decide), hnoz, Option.none_or, Option.or_none,
    Option.or_none, Option.or_none]

theorem dlookup_statusUpdDict_laser (payload : Dict) (p : JVal) (e rm es : String) :
    dlookup (statusUpdDict payload p e rm es) "laser_power"
      = if dget payload "laserPower" = JVal.null then none
        else some (dget payload "laserPower") := by
  unfold statusUpdDict
  rw [dlookup_append, dlookup_append, dlookup_append, dlookup_append]
  have hbase : dlookup (baseUpd payload p e rm es) "laser_power" = none := rfl
  have hnoz : dlookup (nozzleEntries (computeDualExtruder payload) payload)
      "laser_power" = none := by
    unfold nozzleEntries
    split <;> rfl
  rw [hbase, dlookup_condEntry_self, dlookup_condEntry_ne _ (by decide),
    dlookup_condEntry_ne _ (by decide), hnoz, Option.none_or, Option.none_or,
    Option.or_none, Option.or_none]

theorem dlookup_statusUpdDict_focal (payload : Dict) (p : JVal) (e rm es : String) :
    dlookup (statusUpdDict payload p e rm es) "laser_focal_length"
      = if dget payload "laserFocalLength" = JVal.null then none
        else some (dget payload "laserFocalLength") := by
  unfold statusUpdDict
  rw [dlookup_append, dlookup_append, dlookup_append, dlookup_append]
  have hbase : dlookup (baseUpd payload p e rm es) "laser_focal_length" = none := rfl
  have hnoz : dlookup (nozzleEntries (computeDualExtruder payload) payload)
      "laser_focal_length" = none := by
    unfold nozzleEntries
    split <;> rfl
  rw [hbase, dlookup_condEntry_self, dlookup_condEntry_ne _ (by decide),
    dlookup_condEntry_ne _ (by decide), hnoz, Option.none_or, Option.none_or,
    Option.none_or, Option.or_none]

/-- The claim's happy-path CNC payload. -/
def payloadCNC : Dict :=
  [("status", JVal.str "IDLE"), ("toolHead", JVal.str "TOOLHEAD_CNC_1"),
   ("spindleSpeed", JVal.num 12000), ("heatedBedTemperature", JVal.num 0),
   ("heatedBedTargetTemperature", JVal.num 0)]

/-- C9 (amended): for every successfully parsed status payload, each
CNC/laser telemetry key is present in the produced `update_dict` exactly
when the corresponding raw key is present with a non-`None` value (a raw
key bound to JSON `null` is omitted, like an absent key); and on the
claim's concrete CNC payload the telemetry holds `tool_head == "CNC"`
and `spindle_speed == 12000` with no `laser_power` or
`laser_focal_length` keys. -/
theorem cnc_laser_conditional_fields :
    (∀ (payload : Dict) (r : ParsedStatus), parseStatus payload = some r →
      ((hasKey r.upd "spindle_speed" = true ↔ dget payload "spindleSpeed" ≠ JVal.null) ∧
       (hasKey r.upd "laser_power" = true ↔ dget payload "laserPower" ≠ JVal.null) ∧
       (hasKey r.upd "laser_focal_length" = true ↔
         dget payload "laserFocalLength" ≠ JVal.null))) ∧
    (dget (getStatus devOnline (StatusResp.ok payloadCNC)).data "tool_head"
        = JVal.str "CNC" ∧
     dget (getStatus devOnline (StatusResp.ok payloadCNC)).data "spindle_speed"
        = JVal.num 12000 ∧
     hasKey (getStatus devOnline (StatusResp.ok payloadCNC)).data "laser_power" = false ∧
     hasKey (getStatus devOnline (StatusResp.ok payloadCNC)).data "laser_focal_length"
        = false) := by
  constructor
  · intro payload r hp
    obtain ⟨f, hf, hr⟩ := parseStatus_eq_some hp
    refine ⟨?_, ?_, ?_⟩
    · rw [hr]
      show (dlookup (statusUpdDict payload f.1 f.2.1 f.2.2.1 f.2.2.2)
        "spindle_speed").isSome = true ↔ _
      rw [dlookup_statusUpdDict_spindle]
      by_cases hv : dget payload "spindleSpeed" = JVal.null <;> simp [hv]
    · rw [hr]
      show (dlookup (statusUpdDict payload f.1 f.2.1 f.2.2.1 f.2.2.2)
        "laser_power").isSome = true ↔ _
      rw [dlookup_statusUpdDict_laser]
      by_cases hv : dget payload "laserPower" = JVal.null <;> simp [hv]
    · rw [hr]
      show (dlookup (statusUpdDict payload f.1 f.2.1 f.2.2.1 f.2.2.2)
        "laser_focal_length").isSome = true ↔ _
      rw [dlookup_statusUpdDict_focal]
      by_cases hv : dget payload "laserFocalLength" = JVal.null <;> simp [hv]
  · exact ⟨by decide, by decide, by decide, by decide⟩

/-- The payload in which `spindleSpeed` is present but bound to `null`. -/
def payloadNullSpindle : Dict :=
  [("status", JVal.str "IDLE"), ("spindleSpeed", JVal.null)]

/-- C9 counterexample: a payload can contain the `spindleSpeed` key with
a `null` value; the key is then present in the raw payload but the
`spindle_speed` telemetry entry is omitted, so presence in the output is
not equivalent to presence of the raw key as the claim states. -/
theorem spindle_null_counterexample :
    hasKey payloadNullSpindle "spindleSpeed" = true ∧
    hasKey (getStatus devOnline (StatusResp.ok payloadNullSpindle)).data "spindle_speed"
      = false := by
  decide

/-- Witness for C9 (amended) on the concrete CNC payload. -/
theorem cnc_laser_conditional_fields_witness :
    (parseStatus payloadCNC).map (fun r => hasKey r.upd "spindle_speed") = some true ∧
    (parseStatus payloadCNC).map (fun r => hasKey r.upd "laser_power") = some false := by
  cases hpc : parseStatus payloadCNC with
  | none => exact absurd hpc (by decide)
  | some r =>
      obtain ⟨hs, hl, _⟩ := cnc_laser_conditional_fields.1 payloadCNC r hpc
      constructor
      · simp only [Option.map_some']
        rw [hs.mpr (by decide)]
      · simp only [Option.map_some']
        have hfalse : hasKey r.upd "laser_power" = false := by
          cases hb : hasKey r.upd "laser_power" with
          | false => rfl
          | true => exact absurd (hl.mp hb) (by decide)
        rw [hfalse]
